import Mathlib

/-
Shallow embedding of the "world of districts" multiplayer server and client.

Server: src/unnamed/part_002 holds two variants of the same server, a
MongoDB-backed one and a file-backed one.  Where the two variants agree up to
the storage backend (register, login, disconnect, playerMovement,
handleDistrictChange, buyHouse, submitQuizAnswer) a single definition models
both; where they differ materially (playerAttack, buyItem) both are modelled,
the file-backed one under the plain name and the MongoDB one with a `Mongo`
suffix.

Client: src/client/src/main.js provides the collision resolver
(checkCollision / update) and the district-boundary logic
(checkDistrictBoundaries / DISTRICT_MAP).

JavaScript numbers appearing here are all integers (positions move in steps
of 5 from integer starting points; money, prices, damage and hp are integer
valued), so they are modelled as Int.  JS objects used as maps (players,
socketUserMap, persistentUsers, persistentHouses) are modelled as association
lists with object-assignment semantics: aset replaces an existing key in
place, aerase deletes a key, alookup reads.  Mutation of a shared heap object
(e.g. `target.hp -= damage`) is modelled by re-reading the entry from the map
before each property write, which reproduces JS aliasing faithfully.

Cosmetic fields never read by any modelled code path (the random `color`, the
client-only `state` and `lastMoveTime`) are omitted.
-/

/-- Association list lookup: first entry with the given key, as in a JS
object indexing expression `obj[k]`. -/
def alookup {α β : Type} [DecidableEq α] : List (α × β) → α → Option β
  | [], _ => none
  | (k, v) :: rest, a => if k = a then some v else alookup rest a

/-- Association list write `obj[k] = v`: replaces the first entry with the
key if present, appends otherwise. -/
def aset {α β : Type} [DecidableEq α] : List (α × β) → α → β → List (α × β)
  | [], a, b => [(a, b)]
  | (k, v) :: rest, a, b => if k = a then (a, b) :: rest else (k, v) :: aset rest a b

/-- Association list delete `delete obj[k]`. -/
def aerase {α β : Type} [DecidableEq α] : List (α × β) → α → List (α × β)
  | [], _ => []
  | (k, v) :: rest, a => if k = a then aerase rest a else (k, v) :: aerase rest a

/-- Association list field update in place: `obj[k].f = ...`, a no-op when
the key is absent (the MongoDB updateOne-by-filter has the same semantics). -/
def aupdate {α β : Type} [DecidableEq α] : List (α × β) → α → (β → β) → List (α × β)
  | [], _, _ => []
  | (k, v) :: rest, a, f => if k = a then (k, f v) :: rest else (k, v) :: aupdate rest a f

/-- `Object.values(obj)`. -/
def avalues {α β : Type} (l : List (α × β)) : List β := l.map Prod.snd

/-- Keys of an association list are pairwise distinct (always true of a JS
object; aset and aerase preserve it). -/
def KeysNodup {α β : Type} (l : List (α × β)) : Prop := (l.map Prod.fst).Nodup

/-- Durable per-account record (persistentUsers entry / users collection
document), keyed by username. -/
structure Account where
  password : String
  x : Int
  y : Int
  district : String
  money : Int
  equipment : Option String
  deriving DecidableEq, Repr

/-- Live player record (players[socket.id]): the account snapshot plus the
live-only fields set at login and in joinBattle. -/
structure Player where
  username : String
  x : Int
  y : Int
  district : String
  money : Int
  equipment : Option String
  playerId : Nat
  hp : Int
  maxHp : Int
  mode : Option String
  team : Option String
  deriving DecidableEq, Repr

/-- Catalog item.  The damage field is used by playerAttack. -/
structure Item where
  id : String
  name : String
  price : Int
  damage : Int
  deriving DecidableEq, Repr

/-- Persistent plot (persistentHouses entry / houses collection document). -/
structure House where
  id : String
  x : Int
  y : Int
  price : Int
  owner : Option String
  furniture : List String
  deriving DecidableEq, Repr

/-- Spawn position payload. -/
structure Pos where
  x : Int
  y : Int
  deriving DecidableEq, Repr

/-- Authoritative in-memory server state: persistent stores plus the live
maps, and the socket.io room membership (one district room per socket). -/
structure ServerState where
  persistentUsers : List (String × Account)
  persistentHouses : List (String × House)
  items : List Item
  players : List (Nat × Player)
  socketUserMap : List (Nat × String)
  rooms : List (Nat × String)
  deriving DecidableEq, Repr

/-- Delivery target of an outbound socket.io emit. -/
inductive Target where
  /-- socket.emit: to the one originating connection. -/
  | toSelf (sid : Nat)
  /-- socket.to(room).emit: to every member of the room except the sender. -/
  | toRoomExcept (sid : Nat) (room : String)
  /-- io.to(room).emit: to every member of the room. -/
  | toRoom (room : String)
  /-- io.emit: to every connected session. -/
  | broadcast
  deriving DecidableEq, Repr

/-- Outbound event payloads (section 6 of the spec). -/
inductive Event where
  | authError (msg : String)
  | loginSuccess (p : Player) (items : List Item)
  | updateMoney (amount : Int)
  | houseData (houses : List (String × House))
  | houseUpdate (h : House)
  | currentPlayers (l : List Player)
  | newPlayer (p : Player)
  | playerMoved (p : Player)
  | playerUpdate (p : Player)
  | playerDisconnected (sid : Nat)
  | playerChangedDistrict (l : List Player)
  | setDistrict (d : String)
  | chatMessage (id : String) (text : String) (color : String)
  | itemBought (success : Bool) (item : Option Item)
  | quizResult (success : Bool) (reward : Option Int)
  | playerHit (targetId : Nat) (hp : Int) (attackerId : Nat)
  | playerRespawned
  | battleJoined
  deriving DecidableEq, Repr

/-- An emitted event together with its delivery target. -/
abbrev Emit := Target × Event

/-- Fixed world districts (both variants). -/
def DISTRICTS : List String := ["plaza", "housing", "arena", "school", "arena_battle"]

/-- loginUser: maps the socket to the username, builds the live player from
the persisted account (hp and maxHp default to 100), joins the account's
last district and emits loginSuccess, houseData, currentPlayers and
newPlayer.  Both call sites guarantee the account exists, so the none branch
is unreachable and modelled as a no-op. -/
def loginUser (s : ServerState) (sid : Nat) (username : String) : ServerState × List Emit :=
  match alookup s.persistentUsers username with
  | none => (s, [])
  | some userData =>
    let player : Player :=
      { username := username, x := userData.x, y := userData.y,
        district := userData.district, money := userData.money,
        equipment := userData.equipment, playerId := sid,
        hp := 100, maxHp := 100, mode := none, team := none }
    let players1 := aset s.players sid player
    ({ s with socketUserMap := aset s.socketUserMap sid username,
              players := players1,
              rooms := aset s.rooms sid userData.district },
     [ (Target.toSelf sid, Event.loginSuccess player s.items),
       (Target.toSelf sid, Event.houseData s.persistentHouses),
       (Target.toSelf sid, Event.currentPlayers
          ((avalues players1).filter (fun p => p.district == userData.district))),
       (Target.toRoomExcept sid userData.district, Event.newPlayer player) ])

/-- register handler: rejects a taken username, otherwise creates the
account (starting money 1000, plaza spawn at 400,300) and auto-logs-in. -/
def handleRegister (s : ServerState) (sid : Nat) (username passwordArg : String) :
    ServerState × List Emit :=
  match alookup s.persistentUsers username with
  | some _ => (s, [(Target.toSelf sid, Event.authError "Username already taken")])
  | none =>
    let acc : Account :=
      { password := passwordArg, x := 400, y := 300, district := "plaza",
        money := 1000, equipment := none }
    loginUser { s with persistentUsers := aset s.persistentUsers username acc } sid username

/-- login handler: bad credentials first, then the already-logged-in check
(Object.values(socketUserMap).includes(username)), then loginUser. -/
def handleLogin (s : ServerState) (sid : Nat) (username passwordArg : String) :
    ServerState × List Emit :=
  match alookup s.persistentUsers username with
  | none => (s, [(Target.toSelf sid, Event.authError "Invalid username or password")])
  | some user =>
    if user.password ≠ passwordArg then
      (s, [(Target.toSelf sid, Event.authError "Invalid username or password")])
    else if username ∈ avalues s.socketUserMap then
      (s, [(Target.toSelf sid, Event.authError "User already logged in")])
    else loginUser s sid username

/-- disconnect handler: flushes the live player's durable fields to the
account record, removes the live maps entries and notifies the district. -/
def handleDisconnect (s : ServerState) (sid : Nat) : ServerState × List Emit :=
  match alookup s.socketUserMap sid, alookup s.players sid with
  | some username, some p =>
    ({ s with persistentUsers := aupdate s.persistentUsers username
                (fun a => { a with x := p.x, y := p.y, district := p.district,
                                   money := p.money, equipment := p.equipment }),
              players := aerase s.players sid,
              socketUserMap := aerase s.socketUserMap sid,
              rooms := aerase s.rooms sid },
     [(Target.toRoom p.district, Event.playerDisconnected sid)])
  | _, _ => (s, [])

/-- playerMovement handler: sets the session's x and y to exactly the
client-supplied coordinates and broadcasts playerMoved to the current
district, excluding the sender.  No validation of any kind is performed. -/
def handlePlayerMovement (s : ServerState) (sid : Nat) (mx my : Int) :
    ServerState × List Emit :=
  match alookup s.players sid with
  | none => (s, [])
  | some p =>
    let p1 := { p with x := mx, y := my }
    ({ s with players := aset s.players sid p1 },
     [(Target.toRoomExcept sid p1.district, Event.playerMoved p1)])

/-- handleDistrictChange: leave the old room with a departure notification,
set the position (spawnPos if supplied, else the 400,300 default when the
room actually changed), persist the district when it is a fixed one, join
the new room and emit the full member list, newPlayer and setDistrict
(plus houseData when entering housing). -/
def handleDistrictChange (s : ServerState) (sid : Nat) (newRoom : String)
    (spawnPos : Option Pos) : ServerState × List Emit :=
  match alookup s.players sid with
  | none => (s, [])
  | some player =>
    let oldRoom := player.district
    let rooms1 := aerase s.rooms sid
    let p1 := { player with district := newRoom }
    let p2 := match spawnPos with
              | some sp => { p1 with x := sp.x, y := sp.y }
              | none => if oldRoom ≠ newRoom then { p1 with x := 400, y := 300 } else p1
    let pu1 := if DISTRICTS.contains newRoom then
                 match alookup s.socketUserMap sid with
                 | some uname => aupdate s.persistentUsers uname
                     (fun a => { a with district := newRoom })
                 | none => s.persistentUsers
               else s.persistentUsers
    let players1 := aset s.players sid p2
    let roomPlayers := (avalues players1).filter (fun p => p.district == newRoom)
    ({ s with players := players1, rooms := aset rooms1 sid newRoom,
              persistentUsers := pu1 },
     [ (Target.toRoomExcept sid oldRoom, Event.playerDisconnected sid),
       (Target.toSelf sid, Event.playerChangedDistrict roomPlayers),
       (Target.toRoomExcept sid newRoom, Event.newPlayer p2),
       (Target.toSelf sid, Event.setDistrict newRoom) ]
     ++ (if newRoom == "housing"
         then [(Target.toSelf sid, Event.houseData s.persistentHouses)] else []))

/-- joinDistrict handler (file-backed variant): only fixed districts are
accepted; anything else is silently dropped. -/
def handleJoinDistrict (s : ServerState) (sid : Nat) (newDistrict : String)
    (spawnPos : Option Pos) : ServerState × List Emit :=
  if DISTRICTS.contains newDistrict then handleDistrictChange s sid newDistrict spawnPos
  else (s, [])

/-- enterHouse handler: a transfer into the dynamic interior room. -/
def handleEnterHouse (s : ServerState) (sid : Nat) (plotId : String) :
    ServerState × List Emit :=
  handleDistrictChange s sid (String.append "house_" plotId) none

/-- leaveHouse handler: a transfer back to the housing district. -/
def handleLeaveHouse (s : ServerState) (sid : Nat) : ServerState × List Emit :=
  handleDistrictChange s sid "housing" none

/-- buyHouse handler (identical in both variants up to the storage backend):
success requires the plot to exist, the buyer to be logged in, the owner to
be null and the balance to cover the price; on success the buyer is debited,
the owner set, both records persisted, houseUpdate broadcast to everyone,
updateMoney sent to the buyer and a system chat line sent to housing.
Every failure falls through with no emit of any kind. -/
def handleBuyHouse (s : ServerState) (sid : Nat) (plotId : String) :
    ServerState × List Emit :=
  match alookup s.persistentHouses plotId, alookup s.players sid with
  | some dbHouse, some player =>
    if dbHouse.owner = none ∧ dbHouse.price ≤ player.money then
      let house1 := { dbHouse with owner := some player.username }
      let player1 := { player with money := player.money - dbHouse.price }
      ({ s with persistentHouses := aset s.persistentHouses plotId house1,
                players := aset s.players sid player1,
                persistentUsers := aupdate s.persistentUsers player.username
                  (fun a => { a with money := player.money - dbHouse.price }) },
       [ (Target.broadcast, Event.houseUpdate house1),
         (Target.toSelf sid, Event.updateMoney player1.money),
         (Target.toRoom "housing", Event.chatMessage "SYSTEM"
            (player.username ++ " bought " ++ plotId ++ "!") "#ffff00") ])
    else (s, [])
  | _, _ => (s, [])

/-- Client-supplied quiz payload: the operands, the claimed answer, and a
client-asserted correctness flag.  The source destructures only num1, num2
and answer from the inbound object; the correct field models any extra
correctness assertion a client might attach, which the server never reads. -/
structure QuizPayload where
  num1 : Int
  num2 : Int
  answer : Int
  correct : Bool
  deriving DecidableEq, Repr

/-- submitQuizAnswer handler (identical in both variants up to the storage
backend): the server recomputes num1 + num2 and grants the fixed reward of
10 exactly when the claimed answer equals it. -/
def handleSubmitQuizAnswer (s : ServerState) (sid : Nat) (q : QuizPayload) :
    ServerState × List Emit :=
  match alookup s.players sid with
  | none => (s, [])
  | some player =>
    if q.num1 + q.num2 = q.answer then
      let player1 := { player with money := player.money + 10 }
      ({ s with players := aset s.players sid player1,
                persistentUsers := aupdate s.persistentUsers player.username
                  (fun a => { a with money := player.money + 10 }) },
       [ (Target.toSelf sid, Event.updateMoney player1.money),
         (Target.toSelf sid, Event.quizResult true (some 10)) ])
    else (s, [(Target.toSelf sid, Event.quizResult false none)])

/-- buyItem handler, file-backed variant: requires the player and the item;
insufficient funds yields a failure payload, a missing item yields nothing. -/
def handleBuyItem (s : ServerState) (sid : Nat) (itemId : String) :
    ServerState × List Emit :=
  match alookup s.players sid, s.items.find? (fun i => i.id == itemId) with
  | some player, some item =>
    if item.price ≤ player.money then
      let player1 := { player with money := player.money - item.price,
                                   equipment := some itemId }
      ({ s with players := aset s.players sid player1,
                persistentUsers := aupdate s.persistentUsers player.username
                  (fun a => { a with money := player.money - item.price,
                                     equipment := some itemId }) },
       [ (Target.toSelf sid, Event.updateMoney player1.money),
         (Target.toSelf sid, Event.itemBought true (some item)),
         (Target.toRoom player.district, Event.chatMessage "SYSTEM"
            (player.username ++ " bought a " ++ item.name ++ "!") "#ffff00") ])
    else (s, [(Target.toSelf sid, Event.itemBought false none)])
  | _, _ => (s, [])

/-- buyItem handler, MongoDB variant: the failure payload is also sent when
the item does not exist; the money flow is identical. -/
def handleBuyItemMongo (s : ServerState) (sid : Nat) (itemId : String) :
    ServerState × List Emit :=
  match alookup s.players sid with
  | none => (s, [])
  | some player =>
    match s.items.find? (fun i => i.id == itemId) with
    | some item =>
      if item.price ≤ player.money then
        let player1 := { player with money := player.money - item.price,
                                     equipment := some itemId }
        ({ s with players := aset s.players sid player1,
                  persistentUsers := aupdate s.persistentUsers player.username
                    (fun a => { a with money := player.money - item.price,
                                       equipment := some itemId }) },
         [ (Target.toSelf sid, Event.updateMoney player1.money),
           (Target.toSelf sid, Event.itemBought true (some item)),
           (Target.toRoom player.district, Event.chatMessage "SYSTEM"
              (player.username ++ " bought a " ++ item.name ++ "!") "#ffff00") ])
      else (s, [(Target.toSelf sid, Event.itemBought false none)])
    | none => (s, [(Target.toSelf sid, Event.itemBought false none)])

/-- joinBattle handler (file-backed variant): resets hp, records mode and
team, transfers to arena_battle at the fixed spawn, then broadcasts the
updated player (re-read from the heap, as the source mutates one object). -/
def handleJoinBattle (s : ServerState) (sid : Nat) (mode team : Option String) :
    ServerState × List Emit :=
  match alookup s.players sid with
  | none => (s, [])
  | some player =>
    let p1 := { player with hp := 100, maxHp := 100, mode := mode, team := team }
    let s1 := { s with players := aset s.players sid p1 }
    let r := handleDistrictChange s1 sid "arena_battle" (some { x := 400, y := 300 })
    match alookup r.1.players sid with
    | none => (r.1, r.2)
    | some p2 =>
      (r.1, r.2 ++ [ (Target.broadcast, Event.playerUpdate p2),
                     (Target.toSelf sid, Event.battleJoined),
                     (Target.toRoom "arena_battle", Event.chatMessage "SYSTEM"
                        (p2.username ++ " entered the arena!") "#ff4444") ])

/-- Death branch shared by both playerAttack variants (the source text is
identical in both): credit the attacker with 50, persist the balance,
respawn the target at full health at 400,300, and emit playerUpdate, the
system chat line, playerRespawned and updateMoney.  The attacker and the
respawned target are re-read from the heap so that a self-attack (attacker
aliasing the target object) behaves as in the source.  The playerRespawned
emit targets target.socketId, a property the source never sets, so
socket.io resolves it to the room "undefined" and no session receives
it. -/
def attackDeath (s : ServerState) (sid tkey : Nat) (players1 : List (Nat × Player))
    (emits1 : List Emit) : ServerState × List Emit :=
  match alookup players1 sid with
  | none => ({ s with players := players1 }, emits1)
  | some attacker1 =>
    let attacker2 := { attacker1 with money := attacker1.money + 50 }
    let players2 := aset players1 sid attacker2
    let pu2 := aupdate s.persistentUsers attacker2.username
                 (fun a => { a with money := attacker2.money })
    match alookup players2 tkey with
    | none => ({ s with players := players2, persistentUsers := pu2 }, emits1)
    | some targetA =>
      let target2 := { targetA with hp := 100, x := 400, y := 300 }
      ({ s with players := aset players2 tkey target2, persistentUsers := pu2 },
       emits1 ++
         [ (Target.broadcast, Event.playerUpdate target2),
           (Target.toRoom "arena_battle", Event.chatMessage "SYSTEM"
              (attacker2.username ++ " eliminated " ++ target2.username
                ++ "! +50 Coins") "#ffaa00"),
           (Target.toRoom "undefined", Event.playerRespawned),
           (Target.toSelf sid, Event.updateMoney attacker2.money) ])

/-- playerAttack handler, file-backed variant, after attacker and target
have been found at heap keys sid and tkey: both parties must be in
arena_battle; friendly fire (mode team and equal team values) is a no-op;
damage is the equipped weapon's damage or 10; hp is clamped at 0 before any
broadcast; death is handled by attackDeath. -/
def attackBody (s : ServerState) (sid tkey : Nat) (attacker target : Player) :
    ServerState × List Emit :=
  if attacker.district ≠ "arena_battle" ∨ target.district ≠ "arena_battle" then (s, [])
  else if attacker.mode = some "team" ∧ attacker.team = target.team then (s, [])
  else
    let damage := match s.items.find? (fun i => some i.id == attacker.equipment) with
                  | some weapon => weapon.damage
                  | none => 10
    let target1 := { target with hp := max 0 (target.hp - damage) }
    let players1 := aset s.players tkey target1
    let emits1 : List Emit :=
      [ (Target.broadcast, Event.playerUpdate target1),
        (Target.toRoom "arena_battle",
         Event.playerHit target.playerId target1.hp attacker.playerId) ]
    if target1.hp ≤ 0 then attackDeath s sid tkey players1 emits1
    else ({ s with players := players1 }, emits1)

/-- playerAttack handler, file-backed variant: the target is found by
scanning Object.values(players) for a matching playerId. -/
def handlePlayerAttack (s : ServerState) (sid : Nat) (targetId : Nat) :
    ServerState × List Emit :=
  match alookup s.players sid with
  | none => (s, [])
  | some attacker =>
    match s.players.find? (fun kv => kv.2.playerId == targetId) with
    | none => (s, [])
    | some (tkey, target) => attackBody s sid tkey attacker target

/-- playerAttack handler, MongoDB variant, after both lookups: there is no
friendly-fire check, the unequipped damage default is 5, and the hp
decrement is NOT clamped before the playerHit broadcast. -/
def attackBodyMongo (s : ServerState) (sid targetId : Nat) (attacker target : Player) :
    ServerState × List Emit :=
  if attacker.district ≠ "arena_battle" ∨ target.district ≠ "arena_battle" then (s, [])
  else
    let damage := match s.items.find? (fun i => some i.id == attacker.equipment) with
                  | some weapon => weapon.damage
                  | none => 5
    let target1 := { target with hp := target.hp - damage }
    let players1 := aset s.players targetId target1
    let emits1 : List Emit :=
      [ (Target.toRoom "arena_battle", Event.playerHit targetId target1.hp sid) ]
    if target1.hp ≤ 0 then attackDeath s sid targetId players1 emits1
    else ({ s with players := players1 }, emits1)

/-- playerAttack handler, MongoDB variant: the target is looked up directly
at players[targetId]. -/
def handlePlayerAttackMongo (s : ServerState) (sid : Nat) (targetId : Nat) :
    ServerState × List Emit :=
  match alookup s.players sid, alookup s.players targetId with
  | some attacker, some target => attackBodyMongo s sid targetId attacker target
  | _, _ => (s, [])

/-
Client-side definitions, from src/client/src/main.js.
-/

/-- Axis-aligned obstacle rectangle. -/
structure Rect where
  x : Int
  y : Int
  w : Int
  h : Int
  deriving DecidableEq, Repr

/-- BATTLE_OBSTACLES: the six fixed 80x80 obstacles of the battle zone. -/
def BATTLE_OBSTACLES : List Rect :=
  [ { x := 200, y := 150, w := 80, h := 80 },
    { x := 520, y := 150, w := 80, h := 80 },
    { x := 200, y := 370, w := 80, h := 80 },
    { x := 520, y := 370, w := 80, h := 80 },
    { x := 260, y := 260, w := 80, h := 80 },
    { x := 460, y := 260, w := 80, h := 80 } ]

/-- Circle-vs-rectangle test of checkCollision's loop body: the closest
point of the rectangle to the circle centre, then the strict comparison of
the squared distance against the squared radius. -/
def collidesWithRect (x y radius : Int) (r : Rect) : Bool :=
  let closestX := max r.x (min x (r.x + r.w))
  let closestY := max r.y (min y (r.y + r.h))
  let dx := x - closestX
  let dy := y - closestY
  decide (dx * dx + dy * dy < radius * radius)

/-- checkCollision(x, y, radius = 15): obstacles are only consulted when the
current district is arena_battle; otherwise there is never a collision. -/
def checkCollision (currentDistrict : String) (x y : Int) : Bool :=
  if currentDistrict = "arena_battle" then
    BATTLE_OBSTACLES.any (collidesWithRect x y 15)
  else false

/-- Pressed-key state relevant to movement. -/
structure Keys where
  w : Bool
  a : Bool
  s : Bool
  d : Bool
  up : Bool
  left : Bool
  down : Bool
  right : Bool
  deriving DecidableEq, Repr

/-- Candidate x of update(): SPEED is 5; a/ArrowLeft and d/ArrowRight each
contribute independently. -/
def candidateX (k : Keys) (x : Int) : Int :=
  let nx := if k.a || k.left then x - 5 else x
  if k.d || k.right then nx + 5 else nx

/-- Candidate y of update(): w/ArrowUp and s/ArrowDown each contribute
independently. -/
def candidateY (k : Keys) (y : Int) : Int :=
  let ny := if k.w || k.up then y - 5 else y
  if k.s || k.down then ny + 5 else ny

/-- Position resolution of update(): take the candidate if it is free (the
inner moved-flag comparison does not change the resulting position), else
slide on x only, else on y only, else stay. -/
def resolveMove (district : String) (k : Keys) (x y : Int) : Int × Int :=
  let newX := candidateX k x
  let newY := candidateY k y
  if !(checkCollision district newX newY) then (newX, newY)
  else if !(checkCollision district newX y) then (newX, y)
  else if !(checkCollision district x newY) then (x, newY)
  else (x, y)

/-- DISTRICT_MAP topology: which neighbor, if any, lies in each direction
of each district; absent entries are undefined. -/
def DISTRICT_MAP (district : String) (direction : String) : Option String :=
  match district, direction with
  | "plaza", "left" => some "housing"
  | "plaza", "right" => some "arena"
  | "plaza", "top" => some "school"
  | "housing", "right" => some "plaza"
  | "arena", "left" => some "plaza"
  | "school", "bottom" => some "plaza"
  | _, _ => none

/-- Outcome of checkDistrictBoundaries: the player position afterwards, the
joinDistrict transfer emitted (target district with its spawn), and the
isTransitioning cooldown flag afterwards. -/
structure BoundaryOutcome where
  x : Int
  y : Int
  transfer : Option (String × Int × Int)
  transitioning : Bool
  deriving DecidableEq, Repr

/-- checkDistrictBoundaries(player): a no-op during the transition cooldown;
otherwise the sides are tested in the order x < 0, x > 800, y < 0, y > 600;
for the first exited side the configured neighbor (if any) is consulted,
and the spawn is 75 units inside the neighbor's corresponding edge; when a
target was found the player snaps to the spawn, joinDistrict is emitted and
the cooldown starts, otherwise both coordinates are clamped to the 800x600
bounds. -/
def checkDistrictBoundaries (isTransitioning : Bool) (currentDistrict : String)
    (px py : Int) : BoundaryOutcome :=
  if isTransitioning then { x := px, y := py, transfer := none, transitioning := true }
  else
    let ts : Option String × Int × Int :=
      if px < 0 then (DISTRICT_MAP currentDistrict "left", 800 - 75, py)
      else if px > 800 then (DISTRICT_MAP currentDistrict "right", 75, py)
      else if py < 0 then (DISTRICT_MAP currentDistrict "top", px, 600 - 75)
      else if py > 600 then (DISTRICT_MAP currentDistrict "bottom", px, 75)
      else (none, px, py)
    match ts with
    | (some target, sx, sy) =>
      { x := sx, y := sy, transfer := some (target, sx, sy), transitioning := true }
    | (none, _, _) =>
      { x := max 0 (min px 800), y := max 0 (min py 600),
        transfer := none, transitioning := false }

/-- Client handler for playerChangedDistrict: the local players object is
rebuilt from scratch from the received list; entries already known are
spread-merged, but the received server record carries every modelled field,
so the merge of old and new is the new record. -/
def mergePlayers (_oldP newP : Player) : Player := newP

/-- Rebuild of the local peer view on playerChangedDistrict. -/
def applyPlayerChangedDistrict (oldPlayers : List (Nat × Player))
    (newList : List Player) : List (Nat × Player) :=
  newList.foldl (fun acc p =>
    match alookup oldPlayers p.playerId with
    | some oldP => aset acc p.playerId (mergePlayers oldP p)
    | none => aset acc p.playerId p) []

/-
Session-registry event system for the one-session-per-account invariant.
-/

/-- Inbound session-registry events: the operations the invariant claim
quantifies over. -/
inductive SEvent where
  | register (sid : Nat) (username passwordArg : String)
  | login (sid : Nat) (username passwordArg : String)
  | disconnect (sid : Nat)

/-- State transition of one inbound session-registry event. -/
def stepEv (s : ServerState) : SEvent → ServerState
  | SEvent.register sid u pw => (handleRegister s sid u pw).1
  | SEvent.login sid u pw => (handleLogin s sid u pw).1
  | SEvent.disconnect sid => (handleDisconnect s sid).1

/-- Reachable server states: the server starts with the persisted stores
loaded from disk (arbitrary) and no live session, and evolves by register,
login and disconnect events. -/
inductive Reachable : ServerState → Prop where
  | init (pu : List (String × Account)) (ph : List (String × House)) (its : List Item) :
      Reachable { persistentUsers := pu, persistentHouses := ph, items := its,
                  players := [], socketUserMap := [], rooms := [] }
  | step {s : ServerState} (hs : Reachable s) (e : SEvent) : Reachable (stepEv s e)

/-- Players of a district, as the handlers compute member lists. -/
def districtMembers (players : List (Nat × Player)) (d : String) : List Player :=
  (avalues players).filter (fun p => p.district == d)

/-- Socket ids of the players of a district. -/
def memberSids (players : List (Nat × Player)) (d : String) : List Nat :=
  (players.filter (fun kv => kv.2.district == d)).map Prod.fst

/-- Per-player transfer result of handleDistrictChange: the district is set
to the target room and the position comes from spawnPos if supplied, else
the fixed default 400,300 when the room actually changed, else stays. -/
def transferredPlayer (p : Player) (newRoom : String) (spawnPos : Option Pos) : Player :=
  match spawnPos with
  | some sp => { p with district := newRoom, x := sp.x, y := sp.y }
  | none => if p.district ≠ newRoom then { p with district := newRoom, x := 400, y := 300 }
            else { p with district := newRoom }

/-- Invariant of the session registry carried through register, login and
disconnect: live players mirror the socket-user map, no username is held by
two sockets, and every live username is a registered account. -/
def SessionsInv (s : ServerState) : Prop :=
  (∀ sid, (alookup s.players sid).map Player.username = alookup s.socketUserMap sid) ∧
  (∀ sid1 sid2 u, alookup s.socketUserMap sid1 = some u →
      alookup s.socketUserMap sid2 = some u → sid1 = sid2) ∧
  (∀ sid u, alookup s.socketUserMap sid = some u → (alookup s.persistentUsers u).isSome)

/-
Concrete sample data for witnesses and counterexamples.
-/

/-- Sample logged-in player. -/
def samplePlayer : Player :=
  { username := "alice", x := 400, y := 300, district := "plaza", money := 1000,
    equipment := none, playerId := 1, hp := 100, maxHp := 100, mode := none, team := none }

/-- Sample persisted account. -/
def sampleAccount : Account :=
  { password := "pw", x := 400, y := 300, district := "plaza", money := 1000,
    equipment := none }

/-- Sample server state with one live session. -/
def stateA : ServerState :=
  { persistentUsers := [("alice", sampleAccount)], persistentHouses := [], items := [],
    players := [(1, samplePlayer)], socketUserMap := [(1, "alice")],
    rooms := [(1, "plaza")] }

/-- Player bob, standing in the housing district with 1000 coins. -/
def bobPlayer : Player :=
  { samplePlayer with username := "bob", district := "housing" }

/-- Plot already owned by alice. -/
def soldPlot : House :=
  { id := "plot_1", x := 350, y := 200, price := 500, owner := some "alice",
    furniture := [] }

/-- Unowned plot priced 500. -/
def freePlot : House :=
  { id := "plot_2", x := 500, y := 200, price := 500, owner := none, furniture := [] }

/-- State in which bob attempts to buy the already-sold plot. -/
def stateB : ServerState :=
  { persistentUsers := [("bob", sampleAccount)],
    persistentHouses := [("plot_1", soldPlot)], items := [],
    players := [(1, bobPlayer)], socketUserMap := [(1, "bob")],
    rooms := [(1, "housing")] }

/-- State in which bob can buy the free plot. -/
def stateC : ServerState :=
  { stateB with persistentHouses := [("plot_2", freePlot)] }

/-- Unequipped attacker inside the battle district. -/
def attackerE : Player :=
  { samplePlayer with username := "attacker", district := "arena_battle" }

/-- Victim inside the battle district with 3 hp left. -/
def targetE : Player :=
  { samplePlayer with
    username := "victim", district := "arena_battle", playerId := 2, hp := 3 }

/-- State in which a default-damage hit (5) overshoots the victim's 3 hp. -/
def stateE : ServerState :=
  { persistentUsers := [], persistentHouses := [], items := [],
    players := [(1, attackerE), (2, targetE)], socketUserMap := [],
    rooms := [(1, "arena_battle"), (2, "arena_battle")] }

/-- Attacker in team mode on team red. -/
def attackerT : Player :=
  { attackerE with mode := some "team", team := some "red" }

/-- Full-health target on the same team red. -/
def targetT : Player :=
  { targetE with hp := 100, team := some "red" }

/-- State in which attacker and target share the non-null team red. -/
def stateD : ServerState :=
  { stateE with players := [(1, attackerT), (2, targetT)] }

/-
Association-list lemmas.
-/

theorem alookup_aset_self {α β : Type} [DecidableEq α] (l : List (α × β)) (k : α) (v : β) :
    alookup (aset l k v) k = some v := by
  induction l with
  | nil => simp [aset, alookup]
  | cons hd tl ih =>
    obtain ⟨k1, v1⟩ := hd
    by_cases h : k1 = k
    · subst h; simp [aset, alookup]
    · simp [aset, h, alookup, ih]

theorem alookup_aset_ne {α β : Type} [DecidableEq α] (l : List (α × β)) (k k' : α) (v : β)
    (h : k' ≠ k) : alookup (aset l k v) k' = alookup l k' := by
  have h2 : ¬ (k = k') := fun he => h he.symm
  induction l with
  | nil => simp [aset, alookup, h2]
  | cons hd tl ih =>
    obtain ⟨k1, v1⟩ := hd
    by_cases h1 : k1 = k
    · subst h1
      simp [aset, alookup, h2]
    · simp [aset, h1, alookup, ih]

theorem alookup_aerase_self {α β : Type} [DecidableEq α] (l : List (α × β)) (k : α) :
    alookup (aerase l k) k = none := by
  induction l with
  | nil => simp [aerase, alookup]
  | cons hd tl ih =>
    obtain ⟨k1, v1⟩ := hd
    by_cases h : k1 = k
    · simp [aerase, h, ih]
    · simp [aerase, h, alookup, ih]

theorem alookup_aerase_ne {α β : Type} [DecidableEq α] (l : List (α × β)) (k k' : α)
    (h : k' ≠ k) : alookup (aerase l k) k' = alookup l k' := by
  induction l with
  | nil => simp [aerase]
  | cons hd tl ih =>
    obtain ⟨k1, v1⟩ := hd
    by_cases h1 : k1 = k
    · subst h1
      have h2 : ¬ (k1 = k') := fun he => h he.symm
      simp [aerase, alookup, h2, ih]
    · simp [aerase, h1, alookup, ih]

theorem alookup_aupdate {α β : Type} [DecidableEq α] (l : List (α × β)) (k k' : α)
    (f : β → β) :
    alookup (aupdate l k f) k' =
      if k' = k then (alookup l k).map f else alookup l k' := by
  induction l with
  | nil => simp [aupdate, alookup]
  | cons hd tl ih =>
    obtain ⟨k1, v1⟩ := hd
    by_cases h1 : k1 = k
    · subst h1
      by_cases h2 : k' = k1
      · subst h2; simp [aupdate, alookup]
      · have h3 : ¬ (k1 = k') := fun he => h2 he.symm
        simp [aupdate, alookup, h2, h3]
    · by_cases h2 : k1 = k'
      · subst h2
        simp [aupdate, alookup, h1]
      · simp [aupdate, alookup, h1, h2, ih]

theorem alookup_mem_avalues {α β : Type} [DecidableEq α] {l : List (α × β)} {k : α}
    {v : β} (h : alookup l k = some v) : v ∈ avalues l := by
  induction l with
  | nil => simp [alookup] at h
  | cons hd tl ih =>
    obtain ⟨k1, v1⟩ := hd
    by_cases h1 : k1 = k
    · simp [alookup, h1] at h
      simp [avalues, h]
    · simp [alookup, h1] at h
      simp only [avalues, List.map_cons, List.mem_cons]
      right
      exact ih h

theorem mem_aset_self {α β : Type} [DecidableEq α] (l : List (α × β)) (k : α) (v : β) :
    (k, v) ∈ aset l k v := by
  induction l with
  | nil => simp [aset]
  | cons hd tl ih =>
    obtain ⟨k1, v1⟩ := hd
    by_cases h : k1 = k
    · simp [aset, h]
    · simp only [aset, if_neg h, List.mem_cons]
      right
      exact ih

theorem mem_aset_key_eq {α β : Type} [DecidableEq α] {l : List (α × β)} {k : α} {v w : β}
    (hnd : KeysNodup l) (hm : (k, v) ∈ aset l k w) : v = w := by
  induction l with
  | nil =>
    simp [aset] at hm
    exact hm
  | cons hd tl ih =>
    obtain ⟨k1, v1⟩ := hd
    have hcons : (k1 :: tl.map Prod.fst).Nodup := by simpa [KeysNodup] using hnd
    have hnd1 : k1 ∉ tl.map Prod.fst := (List.nodup_cons.mp hcons).1
    have hnd2 : KeysNodup tl := (List.nodup_cons.mp hcons).2
    by_cases h1 : k1 = k
    · subst h1
      simp [aset] at hm
      rcases hm with he | hmem
      · exact he
      · exact absurd (List.mem_map_of_mem Prod.fst hmem) hnd1
    · simp only [aset, if_neg h1, List.mem_cons, Prod.mk.injEq] at hm
      rcases hm with ⟨hk, _⟩ | hmem
      · exact absurd hk.symm h1
      · exact ih hnd2 hmem

theorem applyPlayerChangedDistrict_indep (oldView : List (Nat × Player))
    (newList : List Player) :
    applyPlayerChangedDistrict oldView newList = applyPlayerChangedDistrict [] newList := by
  unfold applyPlayerChangedDistrict
  congr 1
  funext acc p
  cases alookup oldView p.playerId <;> simp [mergePlayers, alookup]

/-- C10: for every playerMovement event from a logged-in session and any
client-supplied coordinates whatsoever, the server sets the session's
authoritative position to exactly those coordinates, performing no collision
test, no bounds clamp and no boundary-crossing evaluation, and broadcasts
playerMoved to the session's current district peers. -/
theorem movement_trusts_client (s : ServerState) (sid : Nat) (mx my : Int) (p : Player)
    (hpl : alookup s.players sid = some p) :
    handlePlayerMovement s sid mx my =
      ({ s with players := aset s.players sid { p with x := mx, y := my } },
       [(Target.toRoomExcept sid p.district,
         Event.playerMoved { p with x := mx, y := my })]) := by
  simp [handlePlayerMovement, hpl]

/-- Witness for movement_trusts_client at a concrete far-out-of-bounds
coordinate pair. -/
theorem movement_trusts_client_witness :
    handlePlayerMovement stateA 1 (-9999) 123456 =
      ({ stateA with
         players := aset stateA.players 1 { samplePlayer with x := -9999, y := 123456 } },
       [(Target.toRoomExcept 1 "plaza",
         Event.playerMoved { samplePlayer with x := -9999, y := 123456 })]) := by
  have h := movement_trusts_client stateA 1 (-9999) 123456 samplePlayer (by decide)
  simpa [samplePlayer] using h

/-- C1: for every submitQuizAnswer event from a logged-in session, the fixed
reward of 10 is granted (money increased, persisted, quizResult success sent
to the submitter) exactly when the server-recomputed sum num1 + num2 equals
the claimed answer; otherwise quizResult failure is sent and the balance is
unchanged; the outcome is independent of any client-asserted correctness
flag carried in the payload. -/
theorem quiz_reward_iff_sum (s : ServerState) (sid : Nat) (q : QuizPayload) (p : Player)
    (hpl : alookup s.players sid = some p) :
    (q.num1 + q.num2 = q.answer →
      handleSubmitQuizAnswer s sid q =
        ({ s with players := aset s.players sid { p with money := p.money + 10 },
                  persistentUsers := aupdate s.persistentUsers p.username
                    (fun a => { a with money := p.money + 10 }) },
         [ (Target.toSelf sid, Event.updateMoney (p.money + 10)),
           (Target.toSelf sid, Event.quizResult true (some 10)) ])) ∧
    (q.num1 + q.num2 ≠ q.answer →
      handleSubmitQuizAnswer s sid q =
        (s, [(Target.toSelf sid, Event.quizResult false none)])) ∧
    (∀ b, handleSubmitQuizAnswer s sid { q with correct := b } =
        handleSubmitQuizAnswer s sid q) ∧
    (((Target.toSelf sid, Event.quizResult true (some 10))
        ∈ (handleSubmitQuizAnswer s sid q).2) ↔ q.num1 + q.num2 = q.answer) := by
  refine ⟨?_, ?_, ?_, ?_⟩
  · intro hc
    simp [handleSubmitQuizAnswer, hpl, hc]
  · intro hc
    simp [handleSubmitQuizAnswer, hpl, hc]
  · intro b
    rfl
  · by_cases hc : q.num1 + q.num2 = q.answer <;>
      simp [handleSubmitQuizAnswer, hpl, hc]

/-- Witness for quiz_reward_iff_sum: a correct answer 2 + 3 = 5 pays out and
an incorrect claimed answer 6 does not, both with a client flag asserting
correctness. -/
theorem quiz_reward_iff_sum_witness :
    handleSubmitQuizAnswer stateA 1 { num1 := 2, num2 := 3, answer := 5, correct := true } =
      ({ stateA with players := aset stateA.players 1 { samplePlayer with money := 1010 },
                     persistentUsers := aupdate stateA.persistentUsers "alice"
                       (fun a => { a with money := 1010 }) },
       [ (Target.toSelf 1, Event.updateMoney 1010),
         (Target.toSelf 1, Event.quizResult true (some 10)) ]) ∧
    handleSubmitQuizAnswer stateA 1 { num1 := 2, num2 := 3, answer := 6, correct := true } =
      (stateA, [(Target.toSelf 1, Event.quizResult false none)]) := by
  constructor
  · have h := (quiz_reward_iff_sum stateA 1
      { num1 := 2, num2 := 3, answer := 5, correct := true } samplePlayer (by decide)).1
      (by decide)
    simpa [samplePlayer] using h
  · exact (quiz_reward_iff_sum stateA 1
      { num1 := 2, num2 := 3, answer := 6, correct := true } samplePlayer (by decide)).2.1
      (by decide)

/-- Counterexample to C2 as stated: bob (balance 1000) attempts to buy the
already-sold plot_1; the purchase is refused with the state unchanged, but
NO failure payload of any kind is sent to the originating connection — the
handler's emit list is empty. -/
theorem buyHouse_failure_silent_cex :
    (alookup stateB.persistentHouses "plot_1").map House.owner = some (some "alice") ∧
    (alookup stateB.players 1).map Player.money = some 1000 ∧
    handleBuyHouse stateB 1 "plot_1" = (stateB, []) := by
  decide

/-- C2 (amended): a buyHouse by a logged-in session on an existing plot
fails silently, with no emitted event and all state unchanged, whenever the
owner is non-null or the balance is below the price; otherwise the buyer is
debited exactly the price, the owner set, Account and Plot persisted, the
updated Plot broadcast to all sessions, updateMoney sent to the buyer and a
system chat line sent to the housing district.  In particular a second
buyHouse on a sold plot changes no balance and no owner. -/
theorem buyHouse_spec (s : ServerState) (sid : Nat) (plotId : String) (p : Player)
    (h : House) (hpl : alookup s.players sid = some p)
    (hh : alookup s.persistentHouses plotId = some h) :
    ((h.owner ≠ none ∨ p.money < h.price) → handleBuyHouse s sid plotId = (s, [])) ∧
    (h.owner = none → h.price ≤ p.money →
      handleBuyHouse s sid plotId =
        ({ s with
           persistentHouses := aset s.persistentHouses plotId
             { h with owner := some p.username },
           players := aset s.players sid { p with money := p.money - h.price },
           persistentUsers := aupdate s.persistentUsers p.username
             (fun a => { a with money := p.money - h.price }) },
         [ (Target.broadcast, Event.houseUpdate { h with owner := some p.username }),
           (Target.toSelf sid, Event.updateMoney (p.money - h.price)),
           (Target.toRoom "housing", Event.chatMessage "SYSTEM"
              (p.username ++ " bought " ++ plotId ++ "!") "#ffff00") ])) := by
  constructor
  · intro hfail
    have hc : ¬ (h.owner = none ∧ h.price ≤ p.money) := by
      rcases hfail with ho | hm
      · exact fun hand => ho hand.1
      · exact fun hand => absurd hand.2 (not_le.mpr hm)
    simp [handleBuyHouse, hpl, hh, hc]
  · intro ho hm
    have hc : h.owner = none ∧ h.price ≤ p.money := ⟨ho, hm⟩
    simp [handleBuyHouse, hpl, hh, hc]

/-- Witness for buyHouse_spec: bob buys the free plot_2 for 500 and ends at
balance 500 with the owner set; a rerun on the now-sold state is silent. -/
theorem buyHouse_spec_witness :
    handleBuyHouse stateC 1 "plot_2" =
      ({ stateC with
         persistentHouses := aset stateC.persistentHouses "plot_2"
           { freePlot with owner := some "bob" },
         players := aset stateC.players 1 { bobPlayer with money := 500 },
         persistentUsers := aupdate stateC.persistentUsers "bob"
           (fun a => { a with money := 500 }) },
       [ (Target.broadcast, Event.houseUpdate { freePlot with owner := some "bob" }),
         (Target.toSelf 1, Event.updateMoney 500),
         (Target.toRoom "housing", Event.chatMessage "SYSTEM"
            "bob bought plot_2!" "#ffff00") ]) ∧
    handleBuyHouse stateB 1 "plot_1" = (stateB, []) := by
  constructor
  · have h := (buyHouse_spec stateC 1 "plot_2" bobPlayer freePlot
      (by decide) (by decide)).2 (by decide) (by decide)
    simpa [bobPlayer, samplePlayer, freePlot] using h
  · exact (buyHouse_spec stateB 1 "plot_1" bobPlayer soldPlot
      (by decide) (by decide)).1 (Or.inl (by decide))

/-- C3 (code bug in the MongoDB variant): with an unequipped attacker
(default damage 5) and a target at 3 hp, the playerAttack handler of the
MongoDB variant broadcasts playerHit carrying hp = -2, a negative health
value, because its hp decrement is not clamped before the broadcast (the
file-backed variant clamps with Math.max(0, ...)). -/
theorem playerHit_negative_broadcast :
    (alookup stateE.players 2).map Player.hp = some 3 ∧
    (Target.toRoom "arena_battle", Event.playerHit 2 (-2) 1)
      ∈ (handlePlayerAttackMongo stateE 1 2).2 ∧
    ((-2 : Int) < 0) := by
  decide

/-- C5 counterexample (MongoDB variant): attacker and target are both in
team mode on the same non-null team red, yet the attack is NOT rejected:
the target's hp drops from 100 to 95 and a playerHit broadcast is emitted,
because the MongoDB playerAttack handler has no friendly-fire check. -/
theorem friendly_fire_mongo_cex :
    attackerT.mode = some "team" ∧ attackerT.team = some "red" ∧
    targetT.team = some "red" ∧
    (alookup stateD.players 2).map Player.hp = some 100 ∧
    (alookup (handlePlayerAttackMongo stateD 1 2).1.players 2).map Player.hp = some 95 ∧
    (handlePlayerAttackMongo stateD 1 2).2 =
      [(Target.toRoom "arena_battle", Event.playerHit 2 95 1)] := by
  decide

/-- C5 (amended): in the file-backed variant, a playerAttack in which team
mode is active and attacker and target share the same non-null team is
rejected as a no-op before any damage: the returned state is exactly the
input state and nothing is broadcast.  The MongoDB variant performs no such
check (see the counterexample). -/
theorem friendly_fire_noop_file (s : ServerState) (sid targetId tkey : Nat)
    (attacker target : Player) (t : String)
    (ha : alookup s.players sid = some attacker)
    (ht : s.players.find? (fun kv => kv.2.playerId == targetId) = some (tkey, target))
    (had : attacker.district = "arena_battle") (htd : target.district = "arena_battle")
    (hmode : attacker.mode = some "team")
    (hat : attacker.team = some t) (htt : target.team = some t) :
    handlePlayerAttack s sid targetId = (s, []) := by
  simp [handlePlayerAttack, ha, ht, attackBody, had, htd, hmode, hat, htt]

/-- Witness for friendly_fire_noop_file: the same same-team state is a
no-op under the file-backed handler. -/
theorem friendly_fire_noop_file_witness :
    handlePlayerAttack stateD 1 2 = (stateD, []) :=
  friendly_fire_noop_file stateD 1 2 2 attackerT targetT "red" (by decide) (by decide)
    (by decide) (by decide) (by decide) (by decide) (by decide)

/-- C4: every purchase operation (buyHouse, and buyItem in both variants)
preserves non-negativity of the acting account's balance: the debit only
happens under the guard balance >= price, so a balance that is non-negative
before the purchase is non-negative after it. -/
theorem purchase_balance_nonneg (s : ServerState) (sid : Nat) (plotId itemId : String)
    (p : Player) (hpl : alookup s.players sid = some p) (hm : 0 ≤ p.money) :
    (∀ q, alookup (handleBuyHouse s sid plotId).1.players sid = some q → 0 ≤ q.money) ∧
    (∀ q, alookup (handleBuyItem s sid itemId).1.players sid = some q → 0 ≤ q.money) ∧
    (∀ q, alookup (handleBuyItemMongo s sid itemId).1.players sid = some q →
      0 ≤ q.money) := by
  refine ⟨?_, ?_, ?_⟩
  · intro q hq
    cases hh : alookup s.persistentHouses plotId with
    | none =>
      simp [handleBuyHouse, hh, hpl] at hq
      subst hq
      exact hm
    | some h =>
      by_cases hc : h.owner = none ∧ h.price ≤ p.money
      · simp [handleBuyHouse, hh, hpl, hc, alookup_aset_self] at hq
        subst hq
        have := hc.2
        simp only
        omega
      · simp [handleBuyHouse, hh, hpl, hc] at hq
        subst hq
        exact hm
  · intro q hq
    cases hf : s.items.find? (fun i => i.id == itemId) with
    | none =>
      simp [handleBuyItem, hf, hpl] at hq
      subst hq
      exact hm
    | some item =>
      by_cases hc : item.price ≤ p.money
      · simp [handleBuyItem, hf, hpl, hc, alookup_aset_self] at hq
        subst hq
        simp only
        omega
      · simp [handleBuyItem, hf, hpl, hc] at hq
        subst hq
        exact hm
  · intro q hq
    cases hf : s.items.find? (fun i => i.id == itemId) with
    | none =>
      simp [handleBuyItemMongo, hf, hpl] at hq
      subst hq
      exact hm
    | some item =>
      by_cases hc : item.price ≤ p.money
      · simp [handleBuyItemMongo, hf, hpl, hc, alookup_aset_self] at hq
        subst hq
        simp only
        omega
      · simp [handleBuyItemMongo, hf, hpl, hc] at hq
        subst hq
        exact hm

/-- Witness for purchase_balance_nonneg: bob buys plot_2 for 500 out of
1000 and the resulting live balance 500 is non-negative. -/
theorem purchase_balance_nonneg_witness :
    alookup (handleBuyHouse stateC 1 "plot_2").1.players 1 =
      some { bobPlayer with money := 500 } ∧
    (0 : Int) ≤ ({ bobPlayer with money := 500 } : Player).money := by
  constructor
  · decide
  · exact (purchase_balance_nonneg stateC 1 "plot_2" "sword" bobPlayer
      (by decide) (by decide)).1 { bobPlayer with money := 500 } (by decide)

/-- C7: during a movement tick in the combat zone, the candidate position
computed from the pressed keys is tested against the six fixed obstacle
rectangles with the player as a circle of radius 15; on collision the move
is retried with only x changed, then with only y changed, and if both
single-axis retries collide the position stays; consequently the resolved
position is collision-free unless it is the unchanged original. -/
theorem combat_move_resolution (k : Keys) (x y : Int) :
    (resolveMove "arena_battle" k x y =
      (if BATTLE_OBSTACLES.any (collidesWithRect (candidateX k x) (candidateY k y) 15) = false
       then (candidateX k x, candidateY k y)
       else if BATTLE_OBSTACLES.any (collidesWithRect (candidateX k x) y 15) = false
       then (candidateX k x, y)
       else if BATTLE_OBSTACLES.any (collidesWithRect x (candidateY k y) 15) = false
       then (x, candidateY k y)
       else (x, y))) ∧
    (checkCollision "arena_battle" (resolveMove "arena_battle" k x y).1
        (resolveMove "arena_battle" k x y).2 = false ∨
      resolveMove "arena_battle" k x y = (x, y)) := by
  have hcc : ∀ a b : Int, checkCollision "arena_battle" a b =
      BATTLE_OBSTACLES.any (collidesWithRect a b 15) := by
    intro a b
    simp [checkCollision]
  constructor
  · simp only [resolveMove, hcc]
    cases h1 : BATTLE_OBSTACLES.any (collidesWithRect (candidateX k x) (candidateY k y) 15) <;>
      cases h2 : BATTLE_OBSTACLES.any (collidesWithRect (candidateX k x) y 15) <;>
        cases h3 : BATTLE_OBSTACLES.any (collidesWithRect x (candidateY k y) 15) <;>
          simp [h1, h2, h3]
  · simp only [resolveMove, hcc]
    cases h1 : BATTLE_OBSTACLES.any (collidesWithRect (candidateX k x) (candidateY k y) 15) <;>
      cases h2 : BATTLE_OBSTACLES.any (collidesWithRect (candidateX k x) y 15) <;>
        cases h3 : BATTLE_OBSTACLES.any (collidesWithRect x (candidateY k y) 15) <;>
          simp [h1, h2, h3, hcc]

/-- Counterexample to C8 as stated: in school at position (-5, 605), which
exits the bounds on the bottom side, the bottom neighbor plaza is
configured, yet no transfer occurs and the position is clamped to (0, 600):
the sides are evaluated in a fixed order and the first exited side (left,
which has no neighbor in school) decides the outcome. -/
theorem boundary_corner_cex :
    DISTRICT_MAP "school" "bottom" = some "plaza" ∧
    ((605 : Int) > 600) ∧
    DISTRICT_MAP "school" "left" = none ∧
    ((-5 : Int) < 0) ∧
    checkDistrictBoundaries false "school" (-5) 605 =
      { x := 0, y := 600, transfer := none, transitioning := false } := by
  decide

/-- C8 (amended): outside the cooldown, the exit sides are evaluated in the
fixed order x < 0, x > 800, y < 0, y > 600 and only the first exited side
is considered: if it has a configured neighbor the player is placed 75
units inside the neighbor's corresponding edge and a joinDistrict transfer
to that neighbor is emitted; if it has none, both coordinates are clamped
to the 800x600 bounds and no transfer occurs (even when another exited side
has a neighbor).  A session within the post-transfer cooldown does not
re-evaluate boundary crossings at all. -/
theorem boundary_crossing_spec (d : String) (x y : Int) :
    (checkDistrictBoundaries true d x y =
      { x := x, y := y, transfer := none, transitioning := true }) ∧
    (x < 0 → ∀ n, DISTRICT_MAP d "left" = some n →
      checkDistrictBoundaries false d x y =
        { x := 725, y := y, transfer := some (n, 725, y), transitioning := true }) ∧
    (x < 0 → DISTRICT_MAP d "left" = none →
      checkDistrictBoundaries false d x y =
        { x := 0, y := max 0 (min y 600), transfer := none, transitioning := false }) ∧
    (0 ≤ x → 800 < x → ∀ n, DISTRICT_MAP d "right" = some n →
      checkDistrictBoundaries false d x y =
        { x := 75, y := y, transfer := some (n, 75, y), transitioning := true }) ∧
    (0 ≤ x → 800 < x → DISTRICT_MAP d "right" = none →
      checkDistrictBoundaries false d x y =
        { x := 800, y := max 0 (min y 600), transfer := none, transitioning := false }) ∧
    (0 ≤ x → x ≤ 800 → y < 0 → ∀ n, DISTRICT_MAP d "top" = some n →
      checkDistrictBoundaries false d x y =
        { x := x, y := 525, transfer := some (n, x, 525), transitioning := true }) ∧
    (0 ≤ x → x ≤ 800 → y < 0 → DISTRICT_MAP d "top" = none →
      checkDistrictBoundaries false d x y =
        { x := x, y := 0, transfer := none, transitioning := false }) ∧
    (0 ≤ x → x ≤ 800 → 0 ≤ y → 600 < y → ∀ n, DISTRICT_MAP d "bottom" = some n →
      checkDistrictBoundaries false d x y =
        { x := x, y := 75, transfer := some (n, x, 75), transitioning := true }) ∧
    (0 ≤ x → x ≤ 800 → 0 ≤ y → 600 < y → DISTRICT_MAP d "bottom" = none →
      checkDistrictBoundaries false d x y =
        { x := x, y := 600, transfer := none, transitioning := false }) := by
  refine ⟨?_, ?_, ?_, ?_, ?_, ?_, ?_, ?_, ?_⟩
  · simp [checkDistrictBoundaries]
  · intro hx n hmap
    simp [checkDistrictBoundaries, hx, hmap]
  · intro hx hmap
    simp only [checkDistrictBoundaries, hx, if_true, Bool.false_eq_true, if_false, hmap,
      BoundaryOutcome.mk.injEq, and_true, true_and, eq_self_iff_true]
    omega
  · intro hx0 hx n hmap
    have hx1 : ¬ (x < 0) := by omega
    have hx2 : x > 800 := hx
    simp [checkDistrictBoundaries, hx1, hx2, hmap]
  · intro hx0 hx hmap
    have hx1 : ¬ (x < 0) := by omega
    have hx2 : x > 800 := hx
    simp only [checkDistrictBoundaries, hx1, hx2, if_true, if_false, Bool.false_eq_true,
      hmap, BoundaryOutcome.mk.injEq, and_true, true_and, eq_self_iff_true]
    omega
  · intro hx0 hx8 hy n hmap
    have hx1 : ¬ (x < 0) := by omega
    have hx2 : ¬ (x > 800) := by omega
    simp [checkDistrictBoundaries, hx1, hx2, hy, hmap]
  · intro hx0 hx8 hy hmap
    have hx1 : ¬ (x < 0) := by omega
    have hx2 : ¬ (x > 800) := by omega
    simp only [checkDistrictBoundaries, hx1, hx2, hy, if_true, if_false, Bool.false_eq_true,
      hmap, BoundaryOutcome.mk.injEq, and_true, true_and, eq_self_iff_true]
    omega
  · intro hx0 hx8 hy0 hy n hmap
    have hx1 : ¬ (x < 0) := by omega
    have hx2 : ¬ (x > 800) := by omega
    have hy1 : ¬ (y < 0) := by omega
    have hy2 : y > 600 := hy
    simp [checkDistrictBoundaries, hx1, hx2, hy1, hy2, hmap]
  · intro hx0 hx8 hy0 hy hmap
    have hx1 : ¬ (x < 0) := by omega
    have hx2 : ¬ (x > 800) := by omega
    have hy1 : ¬ (y < 0) := by omega
    have hy2 : y > 600 := hy
    simp only [checkDistrictBoundaries, hx1, hx2, hy1, hy2, if_true, if_false,
      Bool.false_eq_true, hmap, BoundaryOutcome.mk.injEq, and_true, true_and,
      eq_self_iff_true]
    omega

/-- Witness for boundary_crossing_spec: at (-3, 100) in plaza the left
neighbor housing is entered at the safe offset x = 725, and a session in
cooldown at the same position does not move. -/
theorem boundary_crossing_spec_witness :
    checkDistrictBoundaries false "plaza" (-3) 100 =
      { x := 725, y := 100, transfer := some ("housing", 725, 100),
        transitioning := true } ∧
    checkDistrictBoundaries true "plaza" (-3) 100 =
      { x := -3, y := 100, transfer := none, transitioning := true } := by
  constructor
  · exact (boundary_crossing_spec "plaza" (-3) 100).2.1 (by decide) "housing" (by decide)
  · exact (boundary_crossing_spec "plaza" (-3) 100).1

/-- C6: a district transfer of a live session sets the position to the
supplied spawnPosition, else to the fixed default spawn when the district
actually changed, else leaves it; it removes the session from the previous
district's membership (departure notification to that room first), adds it
to the target district's membership (arrival notification newPlayer to the
room's existing members), and sends the moving session the full member list
of the target district; the client rebuilds its peer view from that list
alone, independent of the prior view. -/
theorem district_transfer_spec (s : ServerState) (sid : Nat) (newRoom : String)
    (spawnPos : Option Pos) (p : Player)
    (hpl : alookup s.players sid = some p) (hnd : KeysNodup s.players) :
    (transferredPlayer p newRoom spawnPos).district = newRoom ∧
    (∀ sp, spawnPos = some sp →
      (transferredPlayer p newRoom spawnPos).x = sp.x ∧
      (transferredPlayer p newRoom spawnPos).y = sp.y) ∧
    (spawnPos = none → p.district ≠ newRoom →
      (transferredPlayer p newRoom spawnPos).x = 400 ∧
      (transferredPlayer p newRoom spawnPos).y = 300) ∧
    (spawnPos = none → p.district = newRoom →
      (transferredPlayer p newRoom spawnPos).x = p.x ∧
      (transferredPlayer p newRoom spawnPos).y = p.y) ∧
    alookup (handleDistrictChange s sid newRoom spawnPos).1.players sid =
      some (transferredPlayer p newRoom spawnPos) ∧
    alookup (handleDistrictChange s sid newRoom spawnPos).1.rooms sid = some newRoom ∧
    sid ∈ memberSids (handleDistrictChange s sid newRoom spawnPos).1.players newRoom ∧
    (p.district ≠ newRoom →
      sid ∉ memberSids (handleDistrictChange s sid newRoom spawnPos).1.players
        p.district) ∧
    (handleDistrictChange s sid newRoom spawnPos).2.head? =
      some (Target.toRoomExcept sid p.district, Event.playerDisconnected sid) ∧
    (Target.toRoomExcept sid newRoom,
      Event.newPlayer (transferredPlayer p newRoom spawnPos))
      ∈ (handleDistrictChange s sid newRoom spawnPos).2 ∧
    (Target.toSelf sid, Event.playerChangedDistrict
      (districtMembers (handleDistrictChange s sid newRoom spawnPos).1.players newRoom))
      ∈ (handleDistrictChange s sid newRoom spawnPos).2 ∧
    (∀ oldView newList, applyPlayerChangedDistrict oldView newList =
      applyPlayerChangedDistrict [] newList) := by
  have hstate : handleDistrictChange s sid newRoom spawnPos =
      ({ s with
         players := aset s.players sid (transferredPlayer p newRoom spawnPos),
         rooms := aset (aerase s.rooms sid) sid newRoom,
         persistentUsers :=
           if DISTRICTS.contains newRoom then
             match alookup s.socketUserMap sid with
             | some uname => aupdate s.persistentUsers uname
                 (fun a => { a with district := newRoom })
             | none => s.persistentUsers
           else s.persistentUsers },
       [ (Target.toRoomExcept sid p.district, Event.playerDisconnected sid),
         (Target.toSelf sid, Event.playerChangedDistrict
            ((avalues (aset s.players sid (transferredPlayer p newRoom spawnPos))).filter
              (fun q => q.district == newRoom))),
         (Target.toRoomExcept sid newRoom,
          Event.newPlayer (transferredPlayer p newRoom spawnPos)),
         (Target.toSelf sid, Event.setDistrict newRoom) ]
       ++ (if newRoom == "housing"
           then [(Target.toSelf sid, Event.houseData s.persistentHouses)] else [])) := by
    cases spawnPos with
    | none =>
      by_cases hd : p.district = newRoom
      · simp [handleDistrictChange, hpl, transferredPlayer, hd]
      · simp [handleDistrictChange, hpl, transferredPlayer, hd]
    | some sp => simp [handleDistrictChange, hpl, transferredPlayer]
  have htpd : (transferredPlayer p newRoom spawnPos).district = newRoom := by
    cases spawnPos with
    | none =>
      by_cases hd : p.district = newRoom <;> simp [transferredPlayer, hd]
    | some sp => simp [transferredPlayer]
  refine ⟨htpd, ?_, ?_, ?_, ?_, ?_, ?_, ?_, ?_, ?_, ?_, ?_⟩
  · intro sp hsp
    subst hsp
    simp [transferredPlayer]
  · intro h0 hne
    subst h0
    simp [transferredPlayer, hne]
  · intro h0 hd
    subst h0
    simp [transferredPlayer, hd]
  · rw [hstate]
    exact alookup_aset_self _ _ _
  · rw [hstate]
    exact alookup_aset_self _ _ _
  · rw [hstate]
    simp only [memberSids, List.mem_map, List.mem_filter]
    refine ⟨(sid, transferredPlayer p newRoom spawnPos), ⟨mem_aset_self _ _ _, ?_⟩, rfl⟩
    simp [htpd]
  · intro hne hmem
    rw [hstate] at hmem
    simp only [memberSids, List.mem_map, List.mem_filter] at hmem
    obtain ⟨⟨k1, q⟩, ⟨hqmem, hqd⟩, hfst⟩ := hmem
    simp only at hfst
    subst hfst
    have hq : q = transferredPlayer p newRoom spawnPos := mem_aset_key_eq hnd hqmem
    subst hq
    rw [htpd] at hqd
    simp at hqd
    exact hne hqd.symm
  · rw [hstate]
    simp
  · rw [hstate]
    simp
  · rw [hstate]
    simp [districtMembers]
  · exact applyPlayerChangedDistrict_indep

/-- Witness for district_transfer_spec: alice transfers from plaza to arena
with no spawn position and lands at the default spawn. -/
theorem district_transfer_spec_witness :
    alookup (handleDistrictChange stateA 1 "arena" none).1.players 1 =
      some (transferredPlayer samplePlayer "arena" none) ∧
    (transferredPlayer samplePlayer "arena" none).district = "arena" ∧
    alookup (handleDistrictChange stateA 1 "arena" none).1.rooms 1 = some "arena" ∧
    1 ∈ memberSids (handleDistrictChange stateA 1 "arena" none).1.players "arena" ∧
    (1 ∉ memberSids (handleDistrictChange stateA 1 "arena" none).1.players "plaza") ∧
    (handleDistrictChange stateA 1 "arena" none).2.head? =
      some (Target.toRoomExcept 1 "plaza", Event.playerDisconnected 1) := by
  have h := district_transfer_spec stateA 1 "arena" none samplePlayer (by decide)
    (by unfold KeysNodup; decide)
  exact ⟨h.2.2.2.2.1, h.1, h.2.2.2.2.2.1, h.2.2.2.2.2.2.1,
    h.2.2.2.2.2.2.2.1 (by decide), h.2.2.2.2.2.2.2.2.1⟩

/-- loginUser preserves the session-registry invariant provided the username
is not currently held by any live socket. -/
theorem sessionsInv_loginUser (s : ServerState) (sid : Nat) (u : String)
    (hinv : SessionsInv s)
    (hfresh : ∀ sid', alookup s.socketUserMap sid' ≠ some u) :
    SessionsInv (loginUser s sid u).1 := by
  cases hpu : alookup s.persistentUsers u with
  | none => simpa [loginUser, hpu] using hinv
  | some acc =>
    obtain ⟨h1, h2, h3⟩ := hinv
    have hstate : (loginUser s sid u).1 =
        { s with
          socketUserMap := aset s.socketUserMap sid u,
          players := aset s.players sid
            { username := u, x := acc.x, y := acc.y, district := acc.district,
              money := acc.money, equipment := acc.equipment, playerId := sid,
              hp := 100, maxHp := 100, mode := none, team := none },
          rooms := aset s.rooms sid acc.district } := by
      simp [loginUser, hpu]
    rw [hstate]
    refine ⟨?_, ?_, ?_⟩
    · intro sid0
      by_cases hs : sid0 = sid
      · subst hs
        simp only [alookup_aset_self]
        rfl
      · simp only [alookup_aset_ne _ _ _ _ hs]
        exact h1 sid0
    · intro sid1 sid2 v hv1 hv2
      by_cases ha : sid1 = sid <;> by_cases hb : sid2 = sid
      · rw [ha, hb]
      · subst ha
        rw [alookup_aset_self] at hv1
        rw [alookup_aset_ne _ _ _ _ hb] at hv2
        cases hv1
        exact absurd hv2 (hfresh sid2)
      · subst hb
        rw [alookup_aset_self] at hv2
        rw [alookup_aset_ne _ _ _ _ ha] at hv1
        cases hv2
        exact absurd hv1 (hfresh sid1)
      · rw [alookup_aset_ne _ _ _ _ ha] at hv1
        rw [alookup_aset_ne _ _ _ _ hb] at hv2
        exact h2 sid1 sid2 v hv1 hv2
    · intro sid0 v hv
      by_cases hs : sid0 = sid
      · subst hs
        rw [alookup_aset_self] at hv
        cases hv
        simp [hpu]
      · rw [alookup_aset_ne _ _ _ _ hs] at hv
        exact h3 sid0 v hv

/-- Each register, login or disconnect step preserves the session-registry
invariant. -/
theorem sessionsInv_step (s : ServerState) (hinv : SessionsInv s) (e : SEvent) :
    SessionsInv (stepEv s e) := by
  cases e with
  | register sid u pw =>
    cases hpu : alookup s.persistentUsers u with
    | some acc => simpa [stepEv, handleRegister, hpu] using hinv
    | none =>
      have hfresh : ∀ sid', alookup s.socketUserMap sid' ≠ some u := by
        intro sid' hcon
        have hs := hinv.2.2 sid' u hcon
        rw [hpu] at hs
        simp at hs
      have hinv1 : SessionsInv { s with persistentUsers := aset s.persistentUsers u { password := pw, x := 400, y := 300, district := "plaza", money := 1000, equipment := none } } := by
        obtain ⟨h1, h2, h3⟩ := hinv
        refine ⟨h1, h2, ?_⟩
        intro sid0 v hv
        by_cases hvu : v = u
        · subst hvu
          simp [alookup_aset_self]
        · rw [alookup_aset_ne _ _ _ _ hvu]
          exact h3 sid0 v hv
      have hres := sessionsInv_loginUser _ sid u hinv1 hfresh
      simpa [stepEv, handleRegister, hpu] using hres
  | login sid u pw =>
    cases hpu : alookup s.persistentUsers u with
    | none => simpa [stepEv, handleLogin, hpu] using hinv
    | some user =>
      by_cases hpw : user.password ≠ pw
      · simpa [stepEv, handleLogin, hpu, hpw] using hinv
      · by_cases hm : u ∈ avalues s.socketUserMap
        · simpa [stepEv, handleLogin, hpu, hpw, hm] using hinv
        · have hfresh : ∀ sid', alookup s.socketUserMap sid' ≠ some u := by
            intro sid' hcon
            exact hm (alookup_mem_avalues hcon)
          have hres := sessionsInv_loginUser s sid u hinv hfresh
          simpa [stepEv, handleLogin, hpu, hpw, hm] using hres
  | disconnect sid =>
    cases hsm : alookup s.socketUserMap sid with
    | none => simpa [stepEv, handleDisconnect, hsm] using hinv
    | some uname =>
      cases hpl : alookup s.players sid with
      | none => simpa [stepEv, handleDisconnect, hsm, hpl] using hinv
      | some p =>
        obtain ⟨h1, h2, h3⟩ := hinv
        have hstate : stepEv s (SEvent.disconnect sid) =
            { s with
              persistentUsers := aupdate s.persistentUsers uname
                (fun a => { a with x := p.x, y := p.y, district := p.district,
                                   money := p.money, equipment := p.equipment }),
              players := aerase s.players sid,
              socketUserMap := aerase s.socketUserMap sid,
              rooms := aerase s.rooms sid } := by
          simp [stepEv, handleDisconnect, hsm, hpl]
        rw [hstate]
        refine ⟨?_, ?_, ?_⟩
        · intro sid0
          by_cases hs : sid0 = sid
          · subst hs
            simp only [alookup_aerase_self]
            rfl
          · simp only [alookup_aerase_ne _ _ _ hs]
            exact h1 sid0
        · intro sid1 sid2 v hv1 hv2
          by_cases ha : sid1 = sid
          · subst ha
            rw [alookup_aerase_self] at hv1
            cases hv1
          · by_cases hb : sid2 = sid
            · subst hb
              rw [alookup_aerase_self] at hv2
              cases hv2
            · rw [alookup_aerase_ne _ _ _ ha] at hv1
              rw [alookup_aerase_ne _ _ _ hb] at hv2
              exact h2 sid1 sid2 v hv1 hv2
        · intro sid0 v hv
          by_cases hs : sid0 = sid
          · subst hs
            rw [alookup_aerase_self] at hv
            cases hv
          · rw [alookup_aerase_ne _ _ _ hs] at hv
            have hold := h3 sid0 v hv
            rw [alookup_aupdate]
            by_cases hvu : v = uname
            · subst hvu
              simpa [Option.isSome_map] using hold
            · rw [if_neg hvu]
              exact hold

/-- Every reachable server state satisfies the session-registry invariant. -/
theorem reachable_sessionsInv (s : ServerState) (hreach : Reachable s) :
    SessionsInv s := by
  induction hreach with
  | init pu ph its =>
    refine ⟨?_, ?_, ?_⟩
    · intro sid
      simp [alookup]
    · intro sid1 sid2 v hv1 hv2
      simp [alookup] at hv1
    · intro sid0 v hv
      simp [alookup] at hv
  | step hs e ih => exact sessionsInv_step _ ih e

/-- C9: at most one live Session references a given Account.  First, in
every state reachable by register, login and disconnect events from a fresh
server start, two live players holding the same username are the same
socket.  Second, a login for an account that already maps to a live session
is rejected with the already-logged-in auth error and the state — hence the
set of Sessions — is completely unchanged. -/
theorem single_session_invariant :
    (∀ s : ServerState, Reachable s →
      ∀ sid1 sid2 p1 p2, alookup s.players sid1 = some p1 →
        alookup s.players sid2 = some p2 → p1.username = p2.username → sid1 = sid2) ∧
    (∀ (s : ServerState) (sid : Nat) (u pw : String) (acc : Account),
      alookup s.persistentUsers u = some acc → acc.password = pw →
      u ∈ avalues s.socketUserMap →
      handleLogin s sid u pw =
        (s, [(Target.toSelf sid, Event.authError "User already logged in")])) := by
  constructor
  · intro s hreach sid1 sid2 p1 p2 hp1 hp2 hu
    have hinv := reachable_sessionsInv s hreach
    have e1 : alookup s.socketUserMap sid1 = some p1.username := by
      have hfield := hinv.1 sid1
      rw [hp1] at hfield
      exact hfield.symm ▸ rfl
    have e2 : alookup s.socketUserMap sid2 = some p2.username := by
      have hfield := hinv.1 sid2
      rw [hp2] at hfield
      exact hfield.symm ▸ rfl
    rw [hu] at e1
    exact hinv.2.1 sid1 sid2 p2.username e1 e2
  · intro s sid u pw acc hpu hpw hm
    subst hpw
    simp [handleLogin, hpu, hm]

/-- Witness for single_session_invariant: uniqueness at the state reached by
registering alice on socket 1, and the already-logged-in rejection of a
second login for alice while socket 1 holds her session. -/
theorem single_session_invariant_witness :
    (1 : Nat) = 1 ∧
    handleLogin stateA 2 "alice" "pw" =
      (stateA, [(Target.toSelf 2, Event.authError "User already logged in")]) := by
  constructor
  · exact single_session_invariant.1
      (stepEv { persistentUsers := [], persistentHouses := [], items := [],
                players := [], socketUserMap := [], rooms := [] }
        (SEvent.register 1 "alice" "pw"))
      (Reachable.step (Reachable.init [] [] []) (SEvent.register 1 "alice" "pw"))
      1 1 samplePlayer samplePlayer (by decide) (by decide) rfl
  · exact single_session_invariant.2 stateA 2 "alice" "pw" sampleAccount
      (by decide) (by decide) (by decide)
